import Mathlib

/-!
Verification of the editing core of the Text-editor repository
(`src/main.cpp`).  The buffer is `std::vector<std::string>`; a line is
modelled as `List Char` and the buffer as `List (List Char)`.  The cursor
is the pair `(current_row, current_col)`, both kept non-negative by the
code's guards, so they are modelled as `Nat`.  Each arm of the input loop
(`main.cpp:408-529`) is translated into one arm of `applyKey`.
-/

namespace Editor

/-- The `ErrorType` enum of `main.cpp:13-26`, constructors in declaration
order so that `errorCode` below matches the C++ `static_cast<int>`. -/
inductive ErrorType where
  | None
  | CommandLineArgumentsError
  | FileOpenError
  | GetConsoleModeError
  | SetConsoleModeError
  | SetConsoleCursorPositionError
  | GetStdHandleError
  | ReadConsoleInputError
  | GetConsoleScreenBufferInfoError
  | GetConsoleCursorInfoError
  | SetConsoleCursorInfoError
  deriving DecidableEq, Fintype

/-- `static_cast<int>` of an `ErrorType` value: the enumerator's
declaration index (`main.cpp:336`, `main.cpp:361` etc.). -/
def errorCode : ErrorType → Nat
  | ErrorType.None => 0
  | ErrorType.CommandLineArgumentsError => 1
  | ErrorType.FileOpenError => 2
  | ErrorType.GetConsoleModeError => 3
  | ErrorType.SetConsoleModeError => 4
  | ErrorType.SetConsoleCursorPositionError => 5
  | ErrorType.GetStdHandleError => 6
  | ErrorType.ReadConsoleInputError => 7
  | ErrorType.GetConsoleScreenBufferInfoError => 8
  | ErrorType.GetConsoleCursorInfoError => 9
  | ErrorType.SetConsoleCursorInfoError => 10

/-- One line of text (a `std::string` of single-byte characters). -/
abbrev Line := List Char

/-- The editor state of the input loop (`main.cpp:364,385`): the line
buffer and the cursor `(current_row, current_col)`. -/
structure EditorState where
  buffer : List Line
  row : Nat
  col : Nat
  deriving DecidableEq

/-- The discrete key intents the loop dispatches on
(`main.cpp:412-523`); `other` stands for any key code in no branch and
outside the printable allow-set, which the loop ignores. -/
inductive Key where
  | up
  | down
  | left
  | right
  | enter
  | backspace
  | tab
  | printable (c : Char)
  | escape
  | other
  deriving DecidableEq

/-- One iteration of the dispatch in `main.cpp:408-529`, translated arm
by arm.  `curLine` is the reference `current_line = buffer.at(current_row)`
taken at the top of the loop (`main.cpp:389`), read before any mutation.
`List.take i ++ _ ++ List.drop i` renders `std::string::insert` /
`substr` / `erase` and `std::vector::insert` / `erase`; the C++ calls
require the index to be in range, which holds in every reachable state
(theorem `validState_applyKey`).  In the `down` and `enter` arms
`buffer.size() - 1` is unsigned arithmetic on a buffer that is non-empty
in every reachable state, so truncated `Nat` subtraction agrees with it
there.  `escape` breaks the loop (`main.cpp:412-415`) leaving the state
unchanged. -/
def applyKey (s : EditorState) (k : Key) : EditorState :=
  let curLine := s.buffer.getD s.row []
  match k with
  | Key.up =>
      if 0 < s.row then
        ⟨s.buffer, s.row - 1, (s.buffer.getD (s.row - 1) []).length⟩
      else s
  | Key.down =>
      if s.row < s.buffer.length - 1 then
        ⟨s.buffer, s.row + 1, (s.buffer.getD (s.row + 1) []).length⟩
      else s
  | Key.left =>
      if 0 < s.col then ⟨s.buffer, s.row, s.col - 1⟩ else s
  | Key.right =>
      if s.col < curLine.length then ⟨s.buffer, s.row, s.col + 1⟩ else s
  | Key.enter =>
      -- ++current_row happens first (main.cpp:450)
      let r := s.row + 1
      if s.col < curLine.length then
        let firstPart := curLine.take s.col
        let secondPart := curLine.drop s.col
        let buf1 := s.buffer.set (r - 1) firstPart
        ⟨buf1.take r ++ secondPart :: buf1.drop r, r, 0⟩
      else
        if r = s.buffer.length - 1 then
          ⟨s.buffer ++ [([] : Line)], r, 0⟩
        else
          ⟨s.buffer.take r ++ ([] : Line) :: s.buffer.drop r, r, 0⟩
  | Key.backspace =>
      if s.col = 0 then
        if 0 < s.row then
          let oldUpperLen := (s.buffer.getD (s.row - 1) []).length
          let buf1 := s.buffer.set (s.row - 1) (s.buffer.getD (s.row - 1) [] ++ curLine)
          ⟨buf1.take s.row ++ buf1.drop (s.row + 1), s.row - 1, oldUpperLen⟩
        else s
      else
        ⟨s.buffer.set s.row (curLine.take (s.col - 1) ++ curLine.drop s.col),
          s.row, s.col - 1⟩
  | Key.tab =>
      ⟨s.buffer.set s.row (curLine.take s.col ++ [' ', ' ', ' ', ' '] ++ curLine.drop s.col),
        s.row, s.col + 4⟩
  | Key.printable c =>
      ⟨s.buffer.set s.row (curLine.take s.col ++ c :: curLine.drop s.col),
        s.row, s.col + 1⟩
  | Key.escape => s
  | Key.other => s

/-- Folding a sequence of key intents through the input loop. -/
def applyKeys (s : EditorState) (ks : List Key) : EditorState :=
  ks.foldl applyKey s

/-- The cursor/document invariant of the spec: the row names an existing
line and the column is at most that line's length (equality meaning
"after the last character"). -/
abbrev validState (s : EditorState) : Prop :=
  s.row < s.buffer.length ∧ s.col ≤ (s.buffer.getD s.row []).length

/-- `readFile` (`main.cpp:246-266`).  A file is modelled by the list of
its `getline` records; `none` models a stream that fails to open.  On
failure the destination buffer is returned untouched; on success the
collected temporary replaces it. -/
def readFile (contents : Option (List Line)) (buffer : List Line) :
    ErrorType × List Line :=
  match contents with
  | none => (ErrorType.FileOpenError, buffer)
  | some lines => (ErrorType.None, lines)

/-- Outcomes of the system calls made before the input loop starts
(`main.cpp:333-379`): argument count, handle acquisitions, the screen
buffer info query, console mode get/set, and the contents of the named
file when `argc = 2`. -/
structure SysEnv where
  argc : Nat
  stdinOk : Bool
  consoleOk : Bool
  screenInfoOk : Bool
  getModeOk : Bool
  setModeOk : Bool
  file : Option (List Line)
  deriving DecidableEq

/-- `main` from the argument check to the entry of the input loop
(`main.cpp:333-379`): either an early exit with an `ErrorType`, or the
buffer the loop starts with.  Note that the result of
`GetConsoleScreenBufferInfo` (`main.cpp:354`) is not examined by the
code, so `screenInfoOk` influences nothing; and the buffer starts as
`std::vector<std::string> buffer{1}`, one empty line. -/
def mainStartup (e : SysEnv) : Except ErrorType (List Line) :=
  if 2 < e.argc then Except.error ErrorType.CommandLineArgumentsError
  else if !e.stdinOk then Except.error ErrorType.GetStdHandleError
  else if !e.consoleOk then Except.error ErrorType.GetStdHandleError
  else if !e.getModeOk then Except.error ErrorType.GetConsoleModeError
  else if !e.setModeOk then Except.error ErrorType.SetConsoleModeError
  else
    let buffer : List Line := [[]]
    if e.argc = 2 then
      let res := readFile e.file buffer
      if res.1 = ErrorType.None then Except.ok res.2 else Except.error res.1
    else Except.ok buffer

/-- `hideCursor` (`main.cpp:97-110`) as a function of the success of its
two system calls.  The branch for a failing `SetConsoleCursorInfo`
(`main.cpp:105-108`) returns `GetConsoleCursorInfoError`; `showCursor`
(`main.cpp:112-125`) has the same shape. -/
def hideCursor (getOk setOk : Bool) : ErrorType :=
  if !getOk then ErrorType.GetConsoleCursorInfoError
  else if !setOk then ErrorType.GetConsoleCursorInfoError
  else ErrorType.None

/-- The exit status of the Escape-triggered path (`main.cpp:532-561`):
after an optional confirmed save (whose target may fail to open), the
program returns `0`. -/
def escapeExitStatus (confirmSave saveOk : Bool) : Nat :=
  if confirmSave then
    if saveOk then 0 else errorCode ErrorType.FileOpenError
  else 0

/-! ## List helper lemmas -/

/-- Reading back the element just written by `List.set`. -/
theorem getD_set_self {α : Type} (l : List α) (i : Nat) (a d : α) (h : i < l.length) :
    (l.set i a).getD i d = a := by
  induction l generalizing i with
  | nil => simp at h
  | cons x xs ih =>
      cases i with
      | zero => rfl
      | succ n => simpa using ih n (Nat.lt_of_succ_lt_succ h)

/-- `getD` ignores the right part of an append when the index is in the
left part. -/
theorem getD_append_left {α : Type} (A B : List α) (i : Nat) (d : α) (h : i < A.length) :
    (A ++ B).getD i d = A.getD i d := by
  induction A generalizing i with
  | nil => simp at h
  | cons x xs ih =>
      cases i with
      | zero => rfl
      | succ n => simpa using ih n (Nat.lt_of_succ_lt_succ h)

/-- `getD` commutes with `take` when the index is below the cut. -/
theorem getD_take {α : Type} (l : List α) (n i : Nat) (d : α) (h : i < n) :
    (l.take n).getD i d = l.getD i d := by
  induction l generalizing n i with
  | nil => simp
  | cons x xs ih =>
      cases n with
      | zero => simp at h
      | succ m =>
          cases i with
          | zero => rfl
          | succ j => simpa using ih m j (Nat.lt_of_succ_lt_succ h)

/-- Taking one element past a `set` position keeps the written value as
the last element. -/
theorem take_set_last {α : Type} (l : List α) (i : Nat) (x : α) (h : i < l.length) :
    (l.set i x).take (i + 1) = l.take i ++ [x] := by
  induction l generalizing i with
  | nil => simp at h
  | cons y ys ih =>
      cases i with
      | zero => rfl
      | succ n => simpa using ih n (Nat.lt_of_succ_lt_succ h)

/-- Dropping strictly past a `set` position erases the write. -/
theorem drop_set_of_lt {α : Type} (l : List α) (i n : Nat) (x : α) (h : i < n) :
    (l.set i x).drop n = l.drop n := by
  induction l generalizing i n with
  | nil => simp
  | cons y ys ih =>
      cases n with
      | zero => simp at h
      | succ m =>
          cases i with
          | zero => rfl
          | succ j => simpa using ih j m (Nat.lt_of_succ_lt_succ h)

/-- Writing an element's own value back is the identity. -/
theorem set_getD_self {α : Type} (l : List α) (i : Nat) (d : α) (h : i < l.length) :
    l.set i (l.getD i d) = l := by
  induction l generalizing i with
  | nil => simp at h
  | cons x xs ih =>
      cases i with
      | zero => rfl
      | succ n => simpa using ih n (Nat.lt_of_succ_lt_succ h)

/-- Length after inserting one element at position `i` (the shape of
`std::string::insert` / `std::vector::insert` in the model). -/
theorem length_insert_split {α : Type} (l : List α) (i : Nat) (x : α) :
    (l.take i ++ x :: l.drop i).length = l.length + 1 := by
  simp only [List.length_append, List.length_cons, List.length_take, List.length_drop]
  omega

/-- Length after inserting a whole list at position `i`. -/
theorem length_insert_list {α : Type} (l m : List α) (i : Nat) :
    (l.take i ++ m ++ l.drop i).length = l.length + m.length := by
  simp only [List.length_append, List.length_take, List.length_drop]
  omega

/-- In the buffer obtained by overwriting row `r-1` and erasing row `r`,
row `r-1` holds the written value. -/
theorem getD_take_append_drop_set {α : Type} (buf : List α) (r : Nat) (v d : α)
    (hr : 0 < r) (hn : r < buf.length) :
    ((buf.set (r - 1) v).take r ++ (buf.set (r - 1) v).drop (r + 1)).getD (r - 1) d = v := by
  have hlt : r - 1 < ((buf.set (r - 1) v).take r).length := by
    rw [List.length_take, List.length_set]
    omega
  rw [getD_append_left _ _ _ _ hlt, getD_take _ _ _ _ (by omega),
    getD_set_self _ _ _ _ (by omega)]

/-! ## The cursor/document invariant (claim C1) -/

/-- Every arm of the dispatch preserves the cursor/document invariant. -/
theorem validState_applyKey (s : EditorState) (k : Key) (h : validState s) :
    validState (applyKey s k) := by
  obtain ⟨hrow, hcol⟩ := h
  cases k with
  | up =>
      simp only [applyKey]
      split
      · exact ⟨by dsimp only; omega, Nat.le_refl _⟩
      · exact ⟨hrow, hcol⟩
  | down =>
      simp only [applyKey]
      split
      · next hlt => exact ⟨by dsimp only; omega, Nat.le_refl _⟩
      · exact ⟨hrow, hcol⟩
  | left =>
      simp only [applyKey]
      split
      · exact ⟨hrow, by dsimp only; omega⟩
      · exact ⟨hrow, hcol⟩
  | right =>
      simp only [applyKey]
      split
      · next hlt => exact ⟨hrow, by dsimp only; omega⟩
      · exact ⟨hrow, hcol⟩
  | enter =>
      simp only [applyKey]
      split
      · refine ⟨?_, Nat.zero_le _⟩
        dsimp only
        rw [length_insert_split, List.length_set]
        omega
      · split
        · refine ⟨?_, Nat.zero_le _⟩
          dsimp only
          simp only [List.length_append, List.length_cons, List.length_nil]
          omega
        · refine ⟨?_, Nat.zero_le _⟩
          dsimp only
          rw [length_insert_split]
          omega
  | backspace =>
      simp only [applyKey]
      split
      · split
        · next hr =>
            refine ⟨?_, ?_⟩
            · dsimp only
              rw [List.length_append, List.length_take, List.length_drop, List.length_set]
              omega
            · dsimp only
              rw [getD_take_append_drop_set _ _ _ _ hr hrow, List.length_append]
              exact Nat.le_add_right _ _
        · exact ⟨hrow, hcol⟩
      · next hc =>
          refine ⟨?_, ?_⟩
          · dsimp only
            rw [List.length_set]
            exact hrow
          · dsimp only
            rw [getD_set_self _ _ _ _ hrow, List.length_append, List.length_take,
              List.length_drop]
            omega
  | tab =>
      refine ⟨?_, ?_⟩
      · simp only [applyKey]
        rw [List.length_set]
        exact hrow
      · simp only [applyKey]
        rw [getD_set_self _ _ _ _ hrow, length_insert_list]
        simp only [List.length_cons, List.length_nil]
        omega
  | printable c =>
      refine ⟨?_, ?_⟩
      · simp only [applyKey]
        rw [List.length_set]
        exact hrow
      · simp only [applyKey]
        rw [getD_set_self _ _ _ _ hrow, length_insert_split]
        omega
  | escape => exact ⟨hrow, hcol⟩
  | other => exact ⟨hrow, hcol⟩

/-- Taking exactly the left part of an append. -/
theorem take_append_of_length {α : Type} (A B : List α) (n : Nat) (h : A.length = n) :
    (A ++ B).take n = A := by
  subst h
  exact List.take_left _ _

/-- Dropping exactly the left part of an append. -/
theorem drop_append_of_length {α : Type} (A B : List α) (n : Nat) (h : A.length = n) :
    (A ++ B).drop n = B := by
  subst h
  exact List.drop_left _ _

/-- Erasing, at position `col`, the character just inserted at position
`col` gives back the original line. -/
theorem insert_erase_line {α : Type} (L : List α) (col : Nat) (c : α) (h : col ≤ L.length) :
    (L.take col ++ c :: L.drop col).take col ++ (L.take col ++ c :: L.drop col).drop (col + 1)
      = L := by
  have hA : (L.take col).length = col := by
    rw [List.length_take]
    omega
  have h1 : (L.take col ++ c :: L.drop col).take col = L.take col :=
    take_append_of_length _ _ _ hA
  have hX : L.take col ++ c :: L.drop col = (L.take col ++ [c]) ++ L.drop col := by
    simp
  have h2 : (L.take col ++ c :: L.drop col).drop (col + 1) = L.drop col := by
    rw [hX]
    exact drop_append_of_length _ _ _ (by simp [hA])
  rw [h1, h2, List.take_append_drop]

/-- C1: starting from any state satisfying the cursor/document invariant,
every sequence of key intents leaves the invariant intact: the row names
an existing line and the column never points past that line's end. -/
theorem C1_cursor_invariant (s : EditorState) (ks : List Key) (hv : validState s) :
    validState (applyKeys s ks) := by
  induction ks generalizing s with
  | nil => exact hv
  | cons k ks ih => exact ih (applyKey s k) (validState_applyKey s k hv)

/-- Witness for C1: a concrete start state and intent sequence. -/
theorem C1_cursor_invariant_witness :
    validState (applyKeys ⟨[[]], 0, 0⟩
      [Key.printable 'h', Key.printable 'i', Key.enter, Key.printable '!',
        Key.up, Key.backspace, Key.tab, Key.down, Key.left, Key.right]) :=
  C1_cursor_invariant ⟨[[]], 0, 0⟩ _ (by decide)

/-- C2 as stated is false on the code: moving up from `(1, 0)` over the
lines `abc` / `x` should, per the claim, give column `min 0 3 = 0`, but
the code sets the column to the new line's length, `3`
(`main.cpp:418-425`). -/
theorem C2_counterexample :
    (applyKey ⟨[['a', 'b', 'c'], ['x']], 1, 0⟩ Key.up).col ≠
      min 0 (([['a', 'b', 'c'], ['x']] : List Line).getD 0 []).length := by
  decide

/-- C2 amended: for MoveUp with `row > 0` (and symmetrically MoveDown
with `row < lineCount - 1`) the row changes by one and the column is set
to the length of the new line, regardless of the previous column. -/
theorem C2_move_resets_column (s : EditorState) :
    (0 < s.row →
      (applyKey s Key.up).row = s.row - 1 ∧
      (applyKey s Key.up).col = (s.buffer.getD (s.row - 1) []).length) ∧
    (s.row < s.buffer.length - 1 →
      (applyKey s Key.down).row = s.row + 1 ∧
      (applyKey s Key.down).col = (s.buffer.getD (s.row + 1) []).length) := by
  constructor
  · intro h
    simp only [applyKey]
    rw [if_pos h]
    exact ⟨rfl, rfl⟩
  · intro h
    simp only [applyKey]
    rw [if_pos h]
    exact ⟨rfl, rfl⟩

/-- Witness for the amended C2 at a concrete state. -/
theorem C2_move_resets_column_witness :
    (applyKey ⟨[['a', 'b', 'c'], ['x']], 1, 0⟩ Key.up).row = 0 ∧
    (applyKey ⟨[['a', 'b', 'c'], ['x']], 1, 0⟩ Key.up).col = 3 := by
  have h := (C2_move_resets_column ⟨[['a', 'b', 'c'], ['x']], 1, 0⟩).1 (by decide)
  exact ⟨h.1, h.2⟩

/-- C3: loading an existing zero-line (empty) file makes the session
start with an empty Document: `readFile` overwrites the initial one-line
buffer with the empty list of records (`main.cpp:255-263`), after which
the loop's first `buffer.at(0)` (`main.cpp:389`) throws. -/
theorem C3_empty_file_gives_empty_document :
    mainStartup ⟨2, true, true, true, true, true, some []⟩ = Except.ok ([] : List Line) :=
  rfl

/-- C4: Backspace at `(row, 0)` with `row > 0` replaces line `row-1` by
the concatenation of the two lines, removes line `row` (line count drops
by one), and puts the cursor at `(row-1, oldUpperLen)` where
`oldUpperLen` is the upper line's pre-merge length (`main.cpp:484-507`). -/
theorem C4_backspace_merges (s : EditorState) (hv : validState s)
    (hc : s.col = 0) (hr : 0 < s.row) :
    applyKey s Key.backspace =
      ⟨s.buffer.take (s.row - 1) ++
          (s.buffer.getD (s.row - 1) [] ++ s.buffer.getD s.row []) ::
            s.buffer.drop (s.row + 1),
        s.row - 1, (s.buffer.getD (s.row - 1) []).length⟩ ∧
    (applyKey s Key.backspace).buffer.length = s.buffer.length - 1 := by
  obtain ⟨hrow, hcol⟩ := hv
  have e1 : s.row - 1 + 1 = s.row := Nat.succ_pred_eq_of_pos hr
  have h1 : (s.buffer.set (s.row - 1)
        (s.buffer.getD (s.row - 1) [] ++ s.buffer.getD s.row [])).take (s.row - 1 + 1) =
      s.buffer.take (s.row - 1) ++
        [s.buffer.getD (s.row - 1) [] ++ s.buffer.getD s.row []] :=
    take_set_last _ _ _ (by omega)
  rw [e1] at h1
  have h2 : (s.buffer.set (s.row - 1)
        (s.buffer.getD (s.row - 1) [] ++ s.buffer.getD s.row [])).drop (s.row + 1) =
      s.buffer.drop (s.row + 1) :=
    drop_set_of_lt _ _ _ _ (by omega)
  have hmain : applyKey s Key.backspace =
      ⟨s.buffer.take (s.row - 1) ++
          (s.buffer.getD (s.row - 1) [] ++ s.buffer.getD s.row []) ::
            s.buffer.drop (s.row + 1),
        s.row - 1, (s.buffer.getD (s.row - 1) []).length⟩ := by
    simp only [applyKey]
    rw [if_pos hc, if_pos hr]
    rw [h1, h2, List.append_assoc, List.singleton_append]
  refine ⟨hmain, ?_⟩
  rw [hmain]
  dsimp only
  rw [List.length_append, List.length_cons, List.length_take, List.length_drop]
  omega

/-- Witness for C4: merging `"c"` into `"ab"` from cursor `(1, 0)`. -/
theorem C4_backspace_merges_witness :
    applyKey ⟨[['a', 'b'], ['c']], 1, 0⟩ Key.backspace = ⟨[['a', 'b', 'c']], 0, 2⟩ ∧
    (applyKey ⟨[['a', 'b'], ['c']], 1, 0⟩ Key.backspace).buffer.length = 1 := by
  have h := C4_backspace_merges ⟨[['a', 'b'], ['c']], 1, 0⟩ (by decide) rfl (by decide)
  exact ⟨h.1, h.2⟩

/-- C5: the mid-line split works as claimed, but Enter at the end of the
second-to-last line hits the inverted `current_row == buffer.size() - 1`
test (`main.cpp:463`) after the row increment, so the blank line is
appended at the very end of the buffer instead of after the edited row:
from lines `a` / `b` with cursor `(0, 1)` the code yields `a` / `b` /
`(empty)` with the cursor on `b`, not `a` / `(empty)` / `b`. -/
theorem C5_enter_at_end_bug :
    applyKey ⟨[['a'], ['b']], 0, 1⟩ Key.enter = ⟨[['a'], ['b'], []], 1, 0⟩ ∧
    applyKey ⟨[['a'], ['b'], ['c']], 0, 1⟩ Key.enter = ⟨[['a'], [], ['b'], ['c']], 1, 0⟩ ∧
    applyKey ⟨[['a', 'b', 'c', 'd']], 0, 2⟩ Key.enter = ⟨[['a', 'b'], ['c', 'd']], 1, 0⟩ :=
  ⟨rfl, rfl, rfl⟩

/-- C6: inserting a printable character and then pressing Backspace at
the resulting column restores the entire editor state, in particular the
original line content (`main.cpp:523-528` then `main.cpp:509-513`). -/
theorem C6_insert_delete_roundtrip (s : EditorState) (c : Char) (hv : validState s) :
    applyKey (applyKey s (Key.printable c)) Key.backspace = s := by
  obtain ⟨buf, row, col⟩ := s
  have hrow : row < buf.length := hv.1
  have hcol : col ≤ (buf.getD row []).length := hv.2
  show (⟨(buf.set row ((buf.getD row []).take col ++ c :: (buf.getD row []).drop col)).set row
        (((buf.set row
            ((buf.getD row []).take col ++ c :: (buf.getD row []).drop col)).getD row
              []).take (col + 1 - 1) ++
          ((buf.set row
            ((buf.getD row []).take col ++ c :: (buf.getD row []).drop col)).getD row
              []).drop (col + 1)),
      row, col + 1 - 1⟩ : EditorState) = ⟨buf, row, col⟩
  rw [List.set_set, getD_set_self _ _ _ _ hrow, Nat.add_sub_cancel,
    insert_erase_line _ _ _ hcol, set_getD_self _ _ _ hrow]

/-- Witness for C6: inserting `x` into `ab` at column 1 and deleting it. -/
theorem C6_insert_delete_roundtrip_witness :
    applyKey (applyKey ⟨[['a', 'b']], 0, 1⟩ (Key.printable 'x')) Key.backspace
      = ⟨[['a', 'b']], 0, 1⟩ :=
  C6_insert_delete_roundtrip ⟨[['a', 'b']], 0, 1⟩ 'x' (by decide)

/-- C7: the split/merge round trip fails when the split row is the
second-to-last one, because of the Enter off-by-one (`main.cpp:463`):
from lines `a` / `b`, Enter at `(0, 1)` then Backspace gives `ab` /
`(empty)` rather than restoring `a` / `b`; from the last row `(1, 1)` the
round trip does restore the state. -/
theorem C7_split_merge_bug :
    applyKeys ⟨[['a'], ['b']], 0, 1⟩ [Key.enter, Key.backspace] = ⟨[['a', 'b'], []], 0, 1⟩ ∧
    applyKeys ⟨[['a'], ['b']], 1, 1⟩ [Key.enter, Key.backspace] = ⟨[['a'], ['b']], 1, 1⟩ :=
  ⟨rfl, rfl⟩

/-- C8: a failing `SetConsoleCursorInfo` inside `hideCursor` is reported
as `GetConsoleCursorInfoError`, not as the distinct
`SetConsoleCursorInfoError` the enum declares (`main.cpp:105-108`); and a
failing `GetConsoleScreenBufferInfo` at startup is not checked at all
(`main.cpp:354`): `mainStartup` proceeds to the editing loop. -/
theorem C8_cursor_visibility_and_screen_info_errors :
    hideCursor true false = ErrorType.GetConsoleCursorInfoError ∧
    ErrorType.GetConsoleCursorInfoError ≠ ErrorType.SetConsoleCursorInfoError ∧
    mainStartup ⟨1, true, true, false, true, true, none⟩ = Except.ok [([] : Line)] := by
  refine ⟨rfl, ?_, rfl⟩
  decide

/-- C9: more than one positional argument (`argc > 2`) exits with the
`CommandLineArgumentsError` status; the enum cast gives every kind its
own distinct status, non-zero for every actual error kind; and the
Escape-triggered exit path returns 0 (`main.cpp:333-337,561`). -/
theorem C9_exit_statuses :
    (∀ e : SysEnv, 2 < e.argc →
      mainStartup e = Except.error ErrorType.CommandLineArgumentsError) ∧
    (∀ a b : ErrorType, errorCode a = errorCode b → a = b) ∧
    (∀ a : ErrorType, a ≠ ErrorType.None → errorCode a ≠ 0) ∧
    (∀ saveOk : Bool, escapeExitStatus false saveOk = 0) ∧
    escapeExitStatus true true = 0 := by
  refine ⟨?_, ?_, ?_, ?_, rfl⟩
  · intro e he
    simp only [mainStartup]
    rw [if_pos he]
  · decide
  · decide
  · intro saveOk
    rfl

/-- Witness for C9: three arguments exit with the usage-error status. -/
theorem C9_exit_statuses_witness :
    mainStartup ⟨3, true, true, true, true, true, none⟩
      = Except.error ErrorType.CommandLineArgumentsError :=
  C9_exit_statuses.1 ⟨3, true, true, true, true, true, none⟩ (by decide)

/-- C10: whenever `readFile` reports `FileOpenError`, the destination
buffer is exactly the one passed in — the lines are collected into a
temporary and assigned only on success (`main.cpp:246-266`). -/
theorem C10_readFile_failure_preserves_buffer (contents : Option (List Line))
    (buffer : List Line) (h : (readFile contents buffer).1 = ErrorType.FileOpenError) :
    (readFile contents buffer).2 = buffer := by
  cases contents with
  | none => rfl
  | some lines => exact ErrorType.noConfusion h

/-- Witness for C10: an unopenable file leaves a one-line buffer as is. -/
theorem C10_readFile_failure_preserves_buffer_witness :
    (readFile none [['a']]).2 = [['a']] :=
  C10_readFile_failure_preserves_buffer none [['a']] rfl

end Editor
